import Mathlib

/-
  AIApiConnect — verification of the session transcript store and the
  multi-provider completion router.

  Shallow embedding of:
  - src/unnamed/part_000 : `registerRoutes` — the GET /api/messages/:sessionId,
    POST /api/chat and DELETE /api/messages/:sessionId handlers;
  - src/client/src/pages/chat.tsx : `sendMessageMutation` — the client-side
    turn, including the "puter" provider path handled entirely in the browser.

  The transcript store (`./storage`) and the request-body schema
  (`@shared/schema`) are imported by the routes file but their source is not
  under src/; they are modelled from the spec, as marked on each definition.

  External network calls (the OpenAI SDK call, the DeepSeek `fetch`, the
  Puter.js call) are modelled as oracle parameters: a function from the wire
  request the code builds to the observable outcome of the call.
-/

namespace AIApiConnect

/-- Models the JavaScript / zod test "the string is empty after
trimming": a string trims to the empty string exactly when every one of its
characters is whitespace. Stated structurally over the character list so that
it evaluates in the kernel. -/
def isBlank (s : String) : Bool := s.data.all Char.isWhitespace

/-- JavaScript `x || y` where `x` is a possibly-absent string: a missing value
(`undefined`/`null`) and the empty string are both falsy and fall through to
`y`. -/
def jsOr (x : Option String) (y : String) : String :=
  match x with
  | none => y
  | some s => if s = "" then y else s

/-- Holds when the first character list is an initial segment of the
second. -/
def starts : List Char → List Char → Bool
  | [], _ => true
  | _ :: _, [] => false
  | a :: as, b :: bs => a == b && starts as bs

/-- Holds when the first character list occurs as a contiguous run inside
the second. -/
def occurs (needle : List Char) : List Char → Bool
  | [] => needle.isEmpty
  | b :: bs => starts needle (b :: bs) || occurs needle bs

/-- Holds when the first string occurs as a substring of the second. -/
def strOccurs (needle hay : String) : Bool := occurs needle.data hay.data

/-- A stored chat message (spec §3 data model; shape used by both the routes
file and the client). -/
structure Message where
  id : Nat
  content : String
  role : String
  provider : Option String
  sessionId : String
  timestamp : Nat
deriving Repr, DecidableEq

/-- The argument object of `storage.createMessage` (the fields the routes file
passes). -/
structure InsertMessage where
  content : String
  role : String
  provider : Option String
  sessionId : String
deriving Repr, DecidableEq

/-- The transcript store state: all messages in creation order (across all
sessions) plus a counter supplying fresh unique ids. The counter also serves
as a monotone creation clock for `timestamp`. -/
structure Store where
  messages : List Message
  nextId : Nat
deriving Repr, DecidableEq

/-- The empty store. -/
def emptyStore : Store := { messages := [], nextId := 0 }

/-- Modelled from the spec: `storage.createMessage` (`./storage`, not under
src/). Spec §4.1 `append`: creates and stores a new Message with a fresh
unique id and current timestamp; fails with `ValidationError` if the content
is empty after trimming. -/
def createMessage (s : Store) (im : InsertMessage) : Except String (Message × Store) :=
  if isBlank im.content then
    Except.error "ValidationError: content must not be empty"
  else
    let m : Message :=
      { id := s.nextId, content := im.content, role := im.role,
        provider := im.provider, sessionId := im.sessionId, timestamp := s.nextId }
    Except.ok (m, { messages := s.messages ++ [m], nextId := s.nextId + 1 })

/-- Modelled from the spec: `storage.getMessages` (`./storage`, not under
src/). Spec §4.1 `read`: all messages of the session in creation order; the
empty sequence for an unknown session. -/
def getMessages (s : Store) (sessionId : String) : List Message :=
  s.messages.filter fun m => m.sessionId = sessionId

/-- Modelled from the spec: `storage.clearMessages` (`./storage`, not under
src/). Spec §4.1 `clear`: removes all messages of the session; idempotent. -/
def clearMessages (s : Store) (sessionId : String) : Store :=
  { messages := s.messages.filter fun m => m.sessionId ≠ sessionId,
    nextId := s.nextId }

/-- The body of a POST /api/chat request, after JSON decoding. -/
structure RawChatRequest where
  message : String
  provider : String
  sessionId : String
  apiKey : Option String
deriving Repr, DecidableEq

/-- The provider values accepted by the request schema. The members are those
of the client `Provider` type (src/client/src/pages/chat.tsx):
"openai" | "deepseek" | "puter". -/
def knownProviders : List String := ["openai", "deepseek", "puter"]

/-- Modelled from the spec: `chatRequestSchema.parse` (`@shared/schema`, not
under src/). Spec §6: the validated request carries a non-empty `message`
(empty/whitespace-only input rejected before storage, §3) and a `provider`
drawn from the enum. Returns `true` when the body parses. -/
def chatRequestParses (body : RawChatRequest) : Bool :=
  !isBlank body.message && knownProviders.contains body.provider

/-- One entry of the message list sent to a provider:
`{ role: msg.role, content: msg.content }`. -/
structure WireMessage where
  role : String
  content : String
deriving Repr, DecidableEq

/-- The completion request the routes file builds for a provider:
`{ model, messages, max_tokens }`. -/
structure WireRequest where
  model : String
  messages : List WireMessage
  maxTokens : Nat
deriving Repr, DecidableEq

/-- Observable outcome of one provider network call.
`reply c`: the call succeeded and `choices[0]?.message?.content` extracted to
`c` (`none` when the field is absent). `raise msg`: the call threw an
exception with message `msg` (network error, malformed body, or — for the
OpenAI SDK — any request failure it surfaces as a thrown error).
`httpStatusError s`: a `fetch` resolved with a non-success status whose
`statusText` is `s` (taken by the DeepSeek branch; the OpenAI SDK surfaces
such statuses as thrown errors, modelled here with the status text as the
thrown message). -/
inductive ProviderBehavior
  | reply (content : Option String)
  | raise (msg : String)
  | httpStatusError (statusText : String)
deriving Repr, DecidableEq

/-- The HTTP response of the POST /api/chat handler.
`okJson m` is `res.json({ message: m })`; `badRequest e` is the 400
`{ error: "Invalid request data" }` branch for a Zod parse failure;
`serverError e` is the 500 `{ error: e }` branch for a thrown `Error`. -/
inductive ChatResult
  | okJson (message : Message)
  | badRequest (error : String)
  | serverError (error : String)
deriving Repr, DecidableEq

/-- Outcome of one POST /api/chat call: the HTTP response, the store after
the call, and the completion request sent to the provider, when one was sent
(the network effect, recorded for specification). -/
structure SendChatOutcome where
  result : ChatResult
  store : Store
  sent : Option WireRequest
deriving Repr, DecidableEq

/-- The history translation both provider branches perform:
each stored message is mapped to its role and content fields. -/
def translateHistory (msgs : List Message) : List WireMessage :=
  msgs.map fun m => { role := m.role, content := m.content }

/-- The POST /api/chat handler of `registerRoutes` (src/unnamed/part_000).
Steps, in source order: `chatRequestSchema.parse(req.body)`; store the user
message; branch on the provider — "openai" and "deepseek" each read the full
session history, send it with `max_tokens: 1000`, and extract
`choices[0]?.message?.content || "No response received"`; any other provider
throws `Error("Invalid provider")`; store the assistant reply and return it.
The catch-block maps a parse failure to 400 and a thrown `Error` to 500 with
its message. -/
def sendChat (oracle : WireRequest → ProviderBehavior) (store : Store)
    (body : RawChatRequest) : SendChatOutcome :=
  if chatRequestParses body then
    match createMessage store
        { content := body.message, role := "user",
          provider := some body.provider, sessionId := body.sessionId } with
    | Except.error e => { result := ChatResult.serverError e, store := store, sent := none }
    | Except.ok (_userMessage, store1) =>
      if body.provider = "openai" then
        let conversationHistory := translateHistory (getMessages store1 body.sessionId)
        let wire : WireRequest :=
          { model := "gpt-5", messages := conversationHistory, maxTokens := 1000 }
        match oracle wire with
        | ProviderBehavior.reply content =>
          let aiResponse := jsOr content "No response received"
          match createMessage store1
              { content := aiResponse, role := "assistant",
                provider := some body.provider, sessionId := body.sessionId } with
          | Except.error e =>
            { result := ChatResult.serverError e, store := store1, sent := some wire }
          | Except.ok (aiMessage, store2) =>
            { result := ChatResult.okJson aiMessage, store := store2, sent := some wire }
        | ProviderBehavior.raise msg =>
          { result := ChatResult.serverError msg, store := store1, sent := some wire }
        | ProviderBehavior.httpStatusError statusText =>
          { result := ChatResult.serverError statusText, store := store1, sent := some wire }
      else if body.provider = "deepseek" then
        let conversationHistory := translateHistory (getMessages store1 body.sessionId)
        let wire : WireRequest :=
          { model := "deepseek-chat", messages := conversationHistory, maxTokens := 1000 }
        match oracle wire with
        | ProviderBehavior.reply content =>
          let aiResponse := jsOr content "No response received"
          match createMessage store1
              { content := aiResponse, role := "assistant",
                provider := some body.provider, sessionId := body.sessionId } with
          | Except.error e =>
            { result := ChatResult.serverError e, store := store1, sent := some wire }
          | Except.ok (aiMessage, store2) =>
            { result := ChatResult.okJson aiMessage, store := store2, sent := some wire }
        | ProviderBehavior.raise msg =>
          { result := ChatResult.serverError msg, store := store1, sent := some wire }
        | ProviderBehavior.httpStatusError statusText =>
          { result := ChatResult.serverError ("DeepSeek API error: " ++ statusText),
            store := store1, sent := some wire }
      else
        { result := ChatResult.serverError "Invalid provider", store := store1, sent := none }
  else
    { result := ChatResult.badRequest "Invalid request data", store := store, sent := none }

/-- The GET /api/messages/:sessionId handler: `storage.getMessages(sessionId)`. -/
def listMessages (store : Store) (sessionId : String) : List Message :=
  getMessages store sessionId

/-- The DELETE /api/messages/:sessionId handler: `storage.clearMessages(sessionId)`. -/
def deleteMessages (store : Store) (sessionId : String) : Store :=
  clearMessages store sessionId

/-- The JSON body of a request the client sends to its own backend. -/
inductive BackendBody
  | chatBody (message provider sessionId : String) (apiKey : Option String)
  | aiResponseBody (content provider sessionId : String)
deriving Repr, DecidableEq

/-- A request the client sends to its own backend. -/
structure BackendRequest where
  method : String
  path : String
  body : BackendBody
deriving Repr, DecidableEq

/-- Observable result of a `window.puter.ai.chat` call (external script):
`response.message?.content` and `response.toString()`. -/
structure PuterResponse where
  messageContent : Option String
  toStringVal : String

/-- The backend requests issued by one run of `sendMessageMutation.mutationFn`
(src/client/src/pages/chat.tsx). For provider "puter" the client builds the
conversation history from its cached messages plus the current message, calls
Puter.js itself (`model: "gpt-4o"`, `max_tokens: 1000`), extracts
`response.message?.content || response.toString() || "No response received"`,
and POSTs only that assistant content to /api/ai-response. For every other
provider it POSTs the chat request to /api/chat. -/
def sendMessageMutationRequests (cached : List Message) (chatRequest : RawChatRequest)
    (puter : WireRequest → PuterResponse) : List BackendRequest :=
  if chatRequest.provider = "puter" then
    let conversationHistory :=
      (cached.map fun m => ({ role := m.role, content := m.content } : WireMessage))
        ++ [{ role := "user", content := chatRequest.message }]
    let response := puter
      { model := "gpt-4o", messages := conversationHistory, maxTokens := 1000 }
    let aiContent :=
      jsOr response.messageContent (jsOr (some response.toStringVal) "No response received")
    [{ method := "POST", path := "/api/ai-response",
       body := BackendBody.aiResponseBody aiContent "puter" chatRequest.sessionId }]
  else
    [{ method := "POST", path := "/api/chat",
       body := BackendBody.chatBody chatRequest.message chatRequest.provider
                 chatRequest.sessionId chatRequest.apiKey }]

/-- The (method, path pattern) pairs `registerRoutes` registers
(src/unnamed/part_000): exactly three routes. -/
def registeredRoutes : List (String × String) :=
  [("GET", "/api/messages/:sessionId"),
   ("POST", "/api/chat"),
   ("DELETE", "/api/messages/:sessionId")]

/-- Split a character list on '/' (structural stand-in for splitting a path
into segments). -/
def splitSlash : List Char → List (List Char)
  | [] => [[]]
  | c :: cs =>
    if c = '/' then [] :: splitSlash cs
    else
      match splitSlash cs with
      | [] => [[c]]
      | seg :: rest => (c :: seg) :: rest

/-- One Express path segment matches: a `:param` pattern segment matches any
segment, otherwise the segments must be equal. -/
def segMatches (pat seg : List Char) : Bool :=
  (match pat with
   | c :: _ => c == ':'
   | [] => false) || pat == seg

/-- Express-style route matching: same number of '/'-separated segments and
each pattern segment matches the corresponding path segment. -/
def routeMatches (pat path : String) : Bool :=
  let ps := splitSlash pat.data
  let ss := splitSlash path.data
  ps.length == ss.length && (ps.zip ss).all fun p => segMatches p.1 p.2

/-- Whether some registered route handles the given method and path. -/
def handlesRequest (method path : String) : Bool :=
  registeredRoutes.any fun r => r.1 == method && routeMatches r.2 path


lemma createMessage_ok (s : Store) (im : InsertMessage) (h : isBlank im.content = false) :
    createMessage s im = Except.ok
      ({ id := s.nextId, content := im.content, role := im.role,
         provider := im.provider, sessionId := im.sessionId, timestamp := s.nextId },
       { messages := s.messages ++
           [{ id := s.nextId, content := im.content, role := im.role,
              provider := im.provider, sessionId := im.sessionId, timestamp := s.nextId }],
         nextId := s.nextId + 1 }) := by
  simp [createMessage, h]

lemma parses_isBlank (body : RawChatRequest) (h : chatRequestParses body = true) :
    isBlank body.message = false := by
  simp [chatRequestParses] at h
  exact h.1

lemma sendChat_not_parse (oracle : WireRequest → ProviderBehavior) (store : Store)
    (body : RawChatRequest) (h : chatRequestParses body = false) :
    sendChat oracle store body =
      { result := ChatResult.badRequest "Invalid request data", store := store, sent := none } := by
  simp [sendChat, h]

lemma sendChat_openai (oracle : WireRequest → ProviderBehavior) (store : Store)
    (body : RawChatRequest) (store1 : Store) (wire : WireRequest)
    (hb : isBlank body.message = false) (hp : body.provider = "openai")
    (hstore1 : store1 =
      { messages := store.messages ++
          [{ id := store.nextId, content := body.message, role := "user",
             provider := some "openai", sessionId := body.sessionId,
             timestamp := store.nextId }],
        nextId := store.nextId + 1 })
    (hwire : wire =
      { model := "gpt-5", messages := translateHistory (getMessages store1 body.sessionId),
        maxTokens := 1000 }) :
    sendChat oracle store body =
      match oracle wire with
      | ProviderBehavior.reply content =>
        (match createMessage store1
            { content := jsOr content "No response received", role := "assistant",
              provider := some "openai", sessionId := body.sessionId } with
        | Except.error e =>
          { result := ChatResult.serverError e, store := store1, sent := some wire }
        | Except.ok (aiMessage, store2) =>
          { result := ChatResult.okJson aiMessage, store := store2, sent := some wire })
      | ProviderBehavior.raise msg =>
        { result := ChatResult.serverError msg, store := store1, sent := some wire }
      | ProviderBehavior.httpStatusError statusText =>
        { result := ChatResult.serverError statusText, store := store1, sent := some wire } := by
  have hparse : chatRequestParses body = true := by
    simp [chatRequestParses, hb, hp, knownProviders]
  subst hstore1
  subst hwire
  unfold sendChat
  rw [hparse]
  simp only [if_true]
  rw [hp]
  rw [createMessage_ok store _ hb]
  simp


lemma sendChat_deepseek (oracle : WireRequest → ProviderBehavior) (store : Store)
    (body : RawChatRequest) (store1 : Store) (wire : WireRequest)
    (hb : isBlank body.message = false) (hp : body.provider = "deepseek")
    (hstore1 : store1 =
      { messages := store.messages ++
          [{ id := store.nextId, content := body.message, role := "user",
             provider := some "deepseek", sessionId := body.sessionId,
             timestamp := store.nextId }],
        nextId := store.nextId + 1 })
    (hwire : wire =
      { model := "deepseek-chat", messages := translateHistory (getMessages store1 body.sessionId),
        maxTokens := 1000 }) :
    sendChat oracle store body =
      match oracle wire with
      | ProviderBehavior.reply content =>
        (match createMessage store1
            { content := jsOr content "No response received", role := "assistant",
              provider := some "deepseek", sessionId := body.sessionId } with
        | Except.error e =>
          { result := ChatResult.serverError e, store := store1, sent := some wire }
        | Except.ok (aiMessage, store2) =>
          { result := ChatResult.okJson aiMessage, store := store2, sent := some wire })
      | ProviderBehavior.raise msg =>
        { result := ChatResult.serverError msg, store := store1, sent := some wire }
      | ProviderBehavior.httpStatusError statusText =>
        { result := ChatResult.serverError ("DeepSeek API error: " ++ statusText),
          store := store1, sent := some wire } := by
  have hparse : chatRequestParses body = true := by
    simp [chatRequestParses, hb, hp, knownProviders]
  subst hstore1
  subst hwire
  unfold sendChat
  rw [hparse]
  simp only [if_true]
  rw [hp]
  rw [createMessage_ok store _ hb]
  simp

lemma sendChat_unknown (oracle : WireRequest → ProviderBehavior) (store : Store)
    (body : RawChatRequest) (hparse : chatRequestParses body = true)
    (h1 : ¬ body.provider = "openai") (h2 : ¬ body.provider = "deepseek") :
    sendChat oracle store body =
      { result := ChatResult.serverError "Invalid provider",
        store :=
          { messages := store.messages ++
              [{ id := store.nextId, content := body.message, role := "user",
                 provider := some body.provider, sessionId := body.sessionId,
                 timestamp := store.nextId }],
            nextId := store.nextId + 1 },
        sent := none } := by
  have hb : isBlank body.message = false := parses_isBlank body hparse
  unfold sendChat
  rw [hparse]
  simp only [if_true]
  rw [createMessage_ok store _ hb]
  simp [h1, h2]


lemma jsOr_ne_empty (c : Option String) : jsOr c "No response received" ≠ "" := by
  cases c with
  | none => simp [jsOr]
  | some s =>
    by_cases hs : s = ""
    · simp [jsOr, hs]
    · simp [jsOr, hs]

lemma sendChat_okJson_spec (oracle : WireRequest → ProviderBehavior) (store : Store)
    (body : RawChatRequest) (aiMsg : Message) (out : SendChatOutcome)
    (ho : sendChat oracle store body = out)
    (h : out.result = ChatResult.okJson aiMsg) :
    isBlank body.message = false
    ∧ (body.provider = "openai" ∨ body.provider = "deepseek")
    ∧ isBlank aiMsg.content = false
    ∧ aiMsg.id = store.nextId + 1
    ∧ aiMsg.role = "assistant"
    ∧ aiMsg.provider = some body.provider
    ∧ aiMsg.sessionId = body.sessionId
    ∧ aiMsg.timestamp = store.nextId + 1
    ∧ out.store =
        { messages := store.messages ++
            [{ id := store.nextId, content := body.message, role := "user",
               provider := some body.provider, sessionId := body.sessionId,
               timestamp := store.nextId }, aiMsg],
          nextId := store.nextId + 2 }
    ∧ ∃ wire content,
        out.sent = some wire
        ∧ oracle wire = ProviderBehavior.reply content
        ∧ aiMsg.content = jsOr content "No response received" := by
  unfold sendChat at ho
  split at ho
  · rename_i hparse
    have hb := parses_isBlank body hparse
    split at ho
    · rename_i e heq
      rw [createMessage_ok store _ hb] at heq
      simp at heq
    · rename_i pair userMessage store1 heq
      rw [createMessage_ok store _ hb] at heq
      simp only [Except.ok.injEq, Prod.mk.injEq] at heq
      obtain ⟨h1, h2⟩ := heq
      subst h1
      subst h2
      split at ho
      · rename_i hpo
        dsimp only at ho
        split at ho
        · rename_i content hor
          split at ho
          · rename_i e heq2
            subst ho
            simp at h
          · rename_i pair2 aiMessage store2 heq2
            by_cases hblank : isBlank (jsOr content "No response received") = true
            · rw [show createMessage _
                  { content := jsOr content "No response received", role := "assistant",
                    provider := some body.provider, sessionId := body.sessionId }
                  = Except.error "ValidationError: content must not be empty" by
                simp [createMessage, hblank]] at heq2
              simp at heq2
            · rw [createMessage_ok _ _ (by simpa using hblank)] at heq2
              simp only [Except.ok.injEq, Prod.mk.injEq] at heq2
              obtain ⟨h3, h4⟩ := heq2
              subst h3
              subst h4
              subst ho
              simp only [ChatResult.okJson.injEq] at h
              subst h
              refine ⟨hb, Or.inl hpo, by simpa using hblank, rfl, rfl, rfl, rfl, rfl, ?_,
                _, content, rfl, hor, rfl⟩
              simp
        · rename_i msg hor
          subst ho
          simp at h
        · rename_i statusText hor
          subst ho
          simp at h
      · rename_i hnpo
        split at ho
        · rename_i hpd
          dsimp only at ho
          split at ho
          · rename_i content hor
            split at ho
            · rename_i e heq2
              subst ho
              simp at h
            · rename_i pair2 aiMessage store2 heq2
              by_cases hblank : isBlank (jsOr content "No response received") = true
              · rw [show createMessage _
                    { content := jsOr content "No response received", role := "assistant",
                      provider := some body.provider, sessionId := body.sessionId }
                    = Except.error "ValidationError: content must not be empty" by
                  simp [createMessage, hblank]] at heq2
                simp at heq2
              · rw [createMessage_ok _ _ (by simpa using hblank)] at heq2
                simp only [Except.ok.injEq, Prod.mk.injEq] at heq2
                obtain ⟨h3, h4⟩ := heq2
                subst h3
                subst h4
                subst ho
                simp only [ChatResult.okJson.injEq] at h
                subst h
                refine ⟨hb, Or.inr hpd, by simpa using hblank, rfl, rfl, rfl, rfl, rfl, ?_,
                  _, content, rfl, hor, rfl⟩
                simp
          · rename_i msg hor
            subst ho
            simp at h
          · rename_i statusText hor
            subst ho
            simp at h
        · rename_i hnpd
          subst ho
          simp at h
  · rename_i hparse
    subst ho
    simp at h

lemma getMessages_append (xs ys : List Message) (n : Nat) (sid : String) :
    getMessages { messages := xs ++ ys, nextId := n } sid
      = getMessages { messages := xs, nextId := n } sid
        ++ getMessages { messages := ys, nextId := n } sid := by
  simp [getMessages, List.filter_append]

lemma sendChat_sent_spec (oracle : WireRequest → ProviderBehavior) (store : Store)
    (body : RawChatRequest) (out : SendChatOutcome) (wire : WireRequest)
    (ho : sendChat oracle store body = out)
    (h : out.sent = some wire) :
    isBlank body.message = false
    ∧ (body.provider = "openai" ∨ body.provider = "deepseek")
    ∧ wire.maxTokens = 1000
    ∧ wire.model = (if body.provider = "openai" then "gpt-5" else "deepseek-chat")
    ∧ ∃ userMsg store1,
        createMessage store
            { content := body.message, role := "user",
              provider := some body.provider, sessionId := body.sessionId }
          = Except.ok (userMsg, store1)
        ∧ wire.messages = translateHistory (getMessages store1 body.sessionId)
        ∧ getMessages store1 body.sessionId
            = getMessages store body.sessionId ++ [userMsg] := by
  unfold sendChat at ho
  split at ho
  · rename_i hparse
    have hb := parses_isBlank body hparse
    split at ho
    · rename_i e heq
      rw [createMessage_ok store _ hb] at heq
      simp at heq
    · rename_i pair userMessage store1 heq
      rw [createMessage_ok store _ hb] at heq
      simp only [Except.ok.injEq, Prod.mk.injEq] at heq
      obtain ⟨h1, h2⟩ := heq
      subst h1
      subst h2
      split at ho
      · rename_i hpo
        dsimp only at ho
        have hcm := createMessage_ok store
          { content := body.message, role := "user",
            provider := some body.provider, sessionId := body.sessionId } hb
        have hget : getMessages
            { messages := store.messages ++
                [{ id := store.nextId, content := body.message, role := "user",
                   provider := some body.provider, sessionId := body.sessionId,
                   timestamp := store.nextId }],
              nextId := store.nextId + 1 } body.sessionId
            = getMessages store body.sessionId
              ++ [{ id := store.nextId, content := body.message, role := "user",
                    provider := some body.provider, sessionId := body.sessionId,
                    timestamp := store.nextId }] := by
          simp [getMessages, List.filter_append]
        split at ho
        · rename_i content hor
          split at ho
          · rename_i e heq2
            subst ho
            simp only [Option.some.injEq] at h
            subst h
            exact ⟨hb, Or.inl hpo, rfl, by simp [hpo], _, _, hcm, rfl, hget⟩
          · rename_i pair2 aiMessage store2 heq2
            subst ho
            simp only [Option.some.injEq] at h
            subst h
            exact ⟨hb, Or.inl hpo, rfl, by simp [hpo], _, _, hcm, rfl, hget⟩
        · rename_i msg hor
          subst ho
          simp only [Option.some.injEq] at h
          subst h
          exact ⟨hb, Or.inl hpo, rfl, by simp [hpo], _, _, hcm, rfl, hget⟩
        · rename_i statusText hor
          subst ho
          simp only [Option.some.injEq] at h
          subst h
          exact ⟨hb, Or.inl hpo, rfl, by simp [hpo], _, _, hcm, rfl, hget⟩
      · rename_i hnpo
        split at ho
        · rename_i hpd
          dsimp only at ho
          have hcm := createMessage_ok store
            { content := body.message, role := "user",
              provider := some body.provider, sessionId := body.sessionId } hb
          have hget : getMessages
              { messages := store.messages ++
                  [{ id := store.nextId, content := body.message, role := "user",
                     provider := some body.provider, sessionId := body.sessionId,
                     timestamp := store.nextId }],
                nextId := store.nextId + 1 } body.sessionId
              = getMessages store body.sessionId
                ++ [{ id := store.nextId, content := body.message, role := "user",
                      provider := some body.provider, sessionId := body.sessionId,
                      timestamp := store.nextId }] := by
            simp [getMessages, List.filter_append]
          split at ho
          · rename_i content hor
            split at ho
            · rename_i e heq2
              subst ho
              simp only [Option.some.injEq] at h
              subst h
              exact ⟨hb, Or.inr hpd, rfl, by simp [hpd, hnpo], _, _, hcm, rfl, hget⟩
            · rename_i pair2 aiMessage store2 heq2
              subst ho
              simp only [Option.some.injEq] at h
              subst h
              exact ⟨hb, Or.inr hpd, rfl, by simp [hpd, hnpo], _, _, hcm, rfl, hget⟩
          · rename_i msg hor
            subst ho
            simp only [Option.some.injEq] at h
            subst h
            exact ⟨hb, Or.inr hpd, rfl, by simp [hpd, hnpo], _, _, hcm, rfl, hget⟩
          · rename_i statusText hor
            subst ho
            simp only [Option.some.injEq] at h
            subst h
            exact ⟨hb, Or.inr hpd, rfl, by simp [hpd, hnpo], _, _, hcm, rfl, hget⟩
        · rename_i hnpd
          subst ho
          simp at h
  · rename_i hparse
    subst ho
    simp at h

lemma createMessage_ok_inv (s : Store) (im : InsertMessage) (m : Message) (s2 : Store)
    (h : createMessage s im = Except.ok (m, s2)) :
    m.content = im.content ∧ m.role = im.role ∧ m.provider = im.provider
    ∧ m.sessionId = im.sessionId ∧ s2.messages = s.messages ++ [m]
    ∧ s2.nextId = s.nextId + 1 ∧ isBlank im.content = false := by
  unfold createMessage at h
  split at h
  · simp at h
  · rename_i hblank
    simp only [Except.ok.injEq, Prod.mk.injEq] at h
    obtain ⟨h1, h2⟩ := h
    subst h1
    subst h2
    simp_all

lemma sendChat_new_messages (oracle : WireRequest → ProviderBehavior) (store : Store)
    (body : RawChatRequest) :
    ∃ tail : List Message,
      (sendChat oracle store body).store.messages = store.messages ++ tail
      ∧ ∀ m ∈ tail, m.provider = some body.provider ∧ m.sessionId = body.sessionId := by
  unfold sendChat
  split
  · rename_i hparse
    have hb := parses_isBlank body hparse
    split
    · rename_i e heq
      rw [createMessage_ok store _ hb] at heq
      simp at heq
    · rename_i pair userMessage store1 heq
      obtain ⟨hc, hr, hpv, hsid, hmsgs, hnid, -⟩ := createMessage_ok_inv store _ _ _ heq
      split
      · rename_i hpo
        dsimp only
        split
        · rename_i content hor
          split
          · rename_i e heq2
            exact ⟨[userMessage], by simpa using hmsgs, by simp [hpv, hsid]⟩
          · rename_i pair2 aiMessage store2 heq2
            obtain ⟨hc2, hr2, hpv2, hsid2, hmsgs2, hnid2, -⟩ :=
              createMessage_ok_inv store1 _ _ _ heq2
            refine ⟨[userMessage, aiMessage], ?_, ?_⟩
            · simp only [hmsgs2, hmsgs, List.append_assoc]
              rfl
            · simp [hpv, hsid, hpv2, hsid2]
        · rename_i msg hor
          exact ⟨[userMessage], by simpa using hmsgs, by simp [hpv, hsid]⟩
        · rename_i statusText hor
          exact ⟨[userMessage], by simpa using hmsgs, by simp [hpv, hsid]⟩
      · rename_i hnpo
        split
        · rename_i hpd
          dsimp only
          split
          · rename_i content hor
            split
            · rename_i e heq2
              exact ⟨[userMessage], by simpa using hmsgs, by simp [hpv, hsid]⟩
            · rename_i pair2 aiMessage store2 heq2
              obtain ⟨hc2, hr2, hpv2, hsid2, hmsgs2, hnid2, -⟩ :=
                createMessage_ok_inv store1 _ _ _ heq2
              refine ⟨[userMessage, aiMessage], ?_, ?_⟩
              · simp only [hmsgs2, hmsgs, List.append_assoc]
                rfl
              · simp [hpv, hsid, hpv2, hsid2]
          · rename_i msg hor
            exact ⟨[userMessage], by simpa using hmsgs, by simp [hpv, hsid]⟩
          · rename_i statusText hor
            exact ⟨[userMessage], by simpa using hmsgs, by simp [hpv, hsid]⟩
        · rename_i hnpd
          exact ⟨[userMessage], by simpa using hmsgs, by simp [hpv, hsid]⟩
  · rename_i hparse
    exact ⟨[], by simp, by simp⟩

/-- C1 (counterexample): a POST /api/chat with the schema-valid provider
value "puter" — which the router does not handle — fails with the
"Invalid provider" error, yet the store HAS been mutated: read(sessionId)
afterwards contains the appended user message, refuting "no store mutation
occurs" for this router-unsupported provider. -/
theorem c1_counterexample :
    (sendChat (fun _ => ProviderBehavior.raise "network down") emptyStore
        { message := "hello", provider := "puter", sessionId := "s1", apiKey := none }).result
      = ChatResult.serverError "Invalid provider"
    ∧ getMessages (sendChat (fun _ => ProviderBehavior.raise "network down") emptyStore
        { message := "hello", provider := "puter", sessionId := "s1", apiKey := none }).store "s1"
      ≠ getMessages emptyStore "s1" := by
  refine ⟨by decide, by decide⟩

/-- C1 (amended): a provider value outside the request schema enum
(openai, deepseek, puter) fails validation with no store mutation; the
schema-valid but router-unsupported value "puter" fails with the
"Invalid provider" error only after the user message has been appended, so
read(sessionId) afterwards is the prior sequence plus that user message. -/
theorem c1_unsupported_provider (oracle : WireRequest → ProviderBehavior) (store : Store)
    (body : RawChatRequest) :
    (knownProviders.contains body.provider = false →
      sendChat oracle store body =
        { result := ChatResult.badRequest "Invalid request data", store := store, sent := none })
    ∧ (body.provider = "puter" → isBlank body.message = false →
      (sendChat oracle store body).result = ChatResult.serverError "Invalid provider"
      ∧ getMessages (sendChat oracle store body).store body.sessionId
          = getMessages store body.sessionId
            ++ [{ id := store.nextId, content := body.message, role := "user",
                  provider := some "puter", sessionId := body.sessionId,
                  timestamp := store.nextId }]) := by
  constructor
  · intro hk
    have hpf : chatRequestParses body = false := by
      unfold chatRequestParses
      rw [hk]
      simp
    exact sendChat_not_parse oracle store body hpf
  · intro hp hb
    have hparse : chatRequestParses body = true := by
      simp [chatRequestParses, hb, hp, knownProviders]
    rw [sendChat_unknown oracle store body hparse (by simp [hp]) (by simp [hp])]
    refine ⟨rfl, ?_⟩
    rw [hp]
    simp [getMessages, List.filter_append]

/-- C1 (witness): the amended theorem applied at "claude" (schema-rejected,
store untouched) and at "puter" (schema-valid, user message appended before
the failure). -/
theorem c1_unsupported_provider_witness :
    (sendChat (fun _ => ProviderBehavior.raise "boom") emptyStore
        { message := "hi", provider := "claude", sessionId := "s1", apiKey := none }
      = { result := ChatResult.badRequest "Invalid request data", store := emptyStore, sent := none })
    ∧ ((sendChat (fun _ => ProviderBehavior.raise "boom") emptyStore
        { message := "hi", provider := "puter", sessionId := "s1", apiKey := none }).result
        = ChatResult.serverError "Invalid provider"
      ∧ getMessages (sendChat (fun _ => ProviderBehavior.raise "boom") emptyStore
          { message := "hi", provider := "puter", sessionId := "s1", apiKey := none }).store "s1"
        = getMessages emptyStore "s1"
          ++ [{ id := 0, content := "hi", role := "user", provider := some "puter",
                sessionId := "s1", timestamp := 0 }]) :=
  ⟨(c1_unsupported_provider (fun _ => ProviderBehavior.raise "boom") emptyStore
      { message := "hi", provider := "claude", sessionId := "s1", apiKey := none }).1 (by decide),
   (c1_unsupported_provider (fun _ => ProviderBehavior.raise "boom") emptyStore
      { message := "hi", provider := "puter", sessionId := "s1", apiKey := none }).2 rfl (by decide)⟩

/-- C2 (counterexample): on a successful openai call, the stored USER message
carries provider = some "openai", not null/unset, refuting "the provider
field is null/unset when the role is user". -/
theorem c2_counterexample :
    ((sendChat (fun _ => ProviderBehavior.reply (some "hi")) emptyStore
        { message := "hello", provider := "openai", sessionId := "s1", apiKey := some "k" }).store.messages.map
      fun m => (m.role, m.provider))
    = [("user", some "openai"), ("assistant", some "openai")] := by decide

/-- C2 (amended): every message stored by a sendChat call — the user message
included — carries the request provider in its provider field; the assistant
message returned on success has role "assistant" and provider equal to the
provider that generated the reply. -/
theorem c2_provider_field (oracle : WireRequest → ProviderBehavior) (store : Store)
    (body : RawChatRequest) :
    (∀ m : Message, m ∈ (sendChat oracle store body).store.messages →
      m ∈ store.messages ∨ m.provider = some body.provider)
    ∧ (∀ aiMsg : Message, (sendChat oracle store body).result = ChatResult.okJson aiMsg →
      aiMsg.role = "assistant" ∧ aiMsg.provider = some body.provider) := by
  constructor
  · intro m hm
    obtain ⟨tail, htail, hprop⟩ := sendChat_new_messages oracle store body
    rw [htail] at hm
    rcases List.mem_append.mp hm with h1 | h2
    · exact Or.inl h1
    · exact Or.inr (hprop m h2).1
  · intro aiMsg h
    obtain ⟨-, -, -, -, hrole, hprov, -⟩ := sendChat_okJson_spec oracle store body aiMsg _ rfl h
    exact ⟨hrole, hprov⟩

/-- C2 (witness): the amended theorem applied at a concrete successful
openai call. -/
theorem c2_provider_field_witness :
    (∀ m : Message, m ∈ (sendChat (fun _ => ProviderBehavior.reply (some "hi")) emptyStore
        { message := "hello", provider := "openai", sessionId := "s1", apiKey := some "k" }).store.messages →
      m ∈ emptyStore.messages ∨ m.provider = some "openai")
    ∧ (∀ aiMsg : Message, (sendChat (fun _ => ProviderBehavior.reply (some "hi")) emptyStore
        { message := "hello", provider := "openai", sessionId := "s1", apiKey := some "k" }).result
          = ChatResult.okJson aiMsg →
      aiMsg.role = "assistant" ∧ aiMsg.provider = some "openai") :=
  c2_provider_field (fun _ => ProviderBehavior.reply (some "hi")) emptyStore
    { message := "hello", provider := "openai", sessionId := "s1", apiKey := some "k" }

/-- C3 (counterexample): an openai call failing with a network-level thrown
error ("socket hang up") returns a 500 whose error text is exactly the
upstream exception message; it does not carry the provider name, refuting
"a typed ProviderRequestError carrying the provider name" as a universal
statement. -/
theorem c3_counterexample :
    (sendChat (fun _ => ProviderBehavior.raise "socket hang up") emptyStore
        { message := "hello", provider := "openai", sessionId := "s1", apiKey := some "k" }).result
      = ChatResult.serverError "socket hang up"
    ∧ strOccurs "openai" "socket hang up" = false
    ∧ strOccurs "OpenAI" "socket hang up" = false := by
  refine ⟨by decide, by decide, by decide⟩

/-- C3 (amended): when the provider request fails on a known provider, no
assistant message is appended, the user message appended earlier in the call
remains (the transcript gains exactly one message), the failure is returned
to the caller as the error-result channel carrying the upstream
status/message — a thrown upstream error (network failure, OpenAI SDK error)
is surfaced with exactly the upstream exception message, and a non-success
status with its status text, which for a DeepSeek non-success status is
prefixed as "DeepSeek API error: " ++ statusText, embedding the provider
name — and no exception escapes uncaught (the handler always returns a
ChatResult). -/
theorem c3_provider_failure (oracle : WireRequest → ProviderBehavior) (store : Store)
    (body : RawChatRequest)
    (hp : body.provider = "openai" ∨ body.provider = "deepseek")
    (hb : isBlank body.message = false)
    (hfail : ∀ w c, oracle w ≠ ProviderBehavior.reply c) :
    (∃ wire, (sendChat oracle store body).sent = some wire
      ∧ ((∃ msg, oracle wire = ProviderBehavior.raise msg
            ∧ (sendChat oracle store body).result = ChatResult.serverError msg)
        ∨ (∃ statusText, oracle wire = ProviderBehavior.httpStatusError statusText
            ∧ (sendChat oracle store body).result
                = ChatResult.serverError
                    (if body.provider = "deepseek"
                     then "DeepSeek API error: " ++ statusText
                     else statusText))))
    ∧ (∃ msg, (sendChat oracle store body).result = ChatResult.serverError msg)
    ∧ (sendChat oracle store body).store.messages
        = store.messages ++
          [{ id := store.nextId, content := body.message, role := "user",
             provider := some body.provider, sessionId := body.sessionId,
             timestamp := store.nextId }]
    ∧ (∀ aiMsg, (sendChat oracle store body).result ≠ ChatResult.okJson aiMsg)
    ∧ (∀ statusText : String, ∀ store2 : Store, ∀ body2 : RawChatRequest,
        body2.provider = "deepseek" → isBlank body2.message = false →
        (sendChat (fun _ => ProviderBehavior.httpStatusError statusText) store2 body2).result
          = ChatResult.serverError ("DeepSeek API error: " ++ statusText)) := by
  have hmain : (∃ wire, (sendChat oracle store body).sent = some wire
      ∧ ((∃ msg, oracle wire = ProviderBehavior.raise msg
            ∧ (sendChat oracle store body).result = ChatResult.serverError msg)
        ∨ (∃ statusText, oracle wire = ProviderBehavior.httpStatusError statusText
            ∧ (sendChat oracle store body).result
                = ChatResult.serverError
                    (if body.provider = "deepseek"
                     then "DeepSeek API error: " ++ statusText
                     else statusText))))
      ∧ (sendChat oracle store body).store.messages
        = store.messages ++
          [{ id := store.nextId, content := body.message, role := "user",
             provider := some body.provider, sessionId := body.sessionId,
             timestamp := store.nextId }] := by
    cases hp with
    | inl hpo =>
      set store1 : Store :=
        { messages := store.messages ++
            [{ id := store.nextId, content := body.message, role := "user",
               provider := some "openai", sessionId := body.sessionId,
               timestamp := store.nextId }],
          nextId := store.nextId + 1 } with hs1
      set w : WireRequest :=
        { model := "gpt-5", messages := translateHistory (getMessages store1 body.sessionId),
          maxTokens := 1000 } with hw
      rw [sendChat_openai oracle store body store1 w hb hpo hs1 hw]
      cases hor : oracle w with
      | reply content => exact absurd hor (hfail _ _)
      | raise msg =>
        exact ⟨⟨w, rfl, Or.inl ⟨msg, hor, rfl⟩⟩, by simp [hs1, hpo]⟩
      | httpStatusError statusText =>
        exact ⟨⟨w, rfl, Or.inr ⟨statusText, hor, by simp [hpo]⟩⟩, by simp [hs1, hpo]⟩
    | inr hpd =>
      set store1 : Store :=
        { messages := store.messages ++
            [{ id := store.nextId, content := body.message, role := "user",
               provider := some "deepseek", sessionId := body.sessionId,
               timestamp := store.nextId }],
          nextId := store.nextId + 1 } with hs1
      set w : WireRequest :=
        { model := "deepseek-chat",
          messages := translateHistory (getMessages store1 body.sessionId),
          maxTokens := 1000 } with hw
      rw [sendChat_deepseek oracle store body store1 w hb hpd hs1 hw]
      cases hor : oracle w with
      | reply content => exact absurd hor (hfail _ _)
      | raise msg =>
        exact ⟨⟨w, rfl, Or.inl ⟨msg, hor, rfl⟩⟩, by simp [hs1, hpd]⟩
      | httpStatusError statusText =>
        exact ⟨⟨w, rfl, Or.inr ⟨statusText, hor, by simp [hpd]⟩⟩, by simp [hs1, hpd]⟩
  obtain ⟨hsent, hstore⟩ := hmain
  have hserver : ∃ msg, (sendChat oracle store body).result = ChatResult.serverError msg := by
    obtain ⟨w, -, hcase⟩ := hsent
    rcases hcase with ⟨msg, -, hmsg⟩ | ⟨statusText, -, hmsg⟩
    · exact ⟨msg, hmsg⟩
    · exact ⟨_, hmsg⟩
  refine ⟨hsent, hserver, hstore, ?_, ?_⟩
  · intro aiMsg hcontra
    obtain ⟨msg, hmsg⟩ := hserver
    rw [hmsg] at hcontra
    exact ChatResult.noConfusion hcontra
  · intro statusText store2 body2 hp2 hb2
    rw [sendChat_deepseek (fun _ => ProviderBehavior.httpStatusError statusText)
      store2 body2 _ _ hb2 hp2 rfl rfl]

/-- C3 (witness): the amended theorem applied at a concrete always-throwing
oracle on an openai request — the surfaced error is the upstream exception
message "boom". -/
theorem c3_provider_failure_witness :
    (∃ wire, (sendChat (fun _ => ProviderBehavior.raise "boom") emptyStore
        { message := "hello", provider := "openai", sessionId := "s1", apiKey := some "k" }).sent
        = some wire
      ∧ ((∃ msg, (fun _ => ProviderBehavior.raise "boom") wire = ProviderBehavior.raise msg
            ∧ (sendChat (fun _ => ProviderBehavior.raise "boom") emptyStore
                { message := "hello", provider := "openai", sessionId := "s1",
                  apiKey := some "k" }).result = ChatResult.serverError msg)
        ∨ (∃ statusText,
            (fun _ => ProviderBehavior.raise "boom") wire
              = ProviderBehavior.httpStatusError statusText
            ∧ (sendChat (fun _ => ProviderBehavior.raise "boom") emptyStore
                { message := "hello", provider := "openai", sessionId := "s1",
                  apiKey := some "k" }).result
                = ChatResult.serverError
                    (if ("openai" : String) = "deepseek"
                     then "DeepSeek API error: " ++ statusText
                     else statusText))))
    ∧ (∃ msg, (sendChat (fun _ => ProviderBehavior.raise "boom") emptyStore
        { message := "hello", provider := "openai", sessionId := "s1", apiKey := some "k" }).result
          = ChatResult.serverError msg)
    ∧ (sendChat (fun _ => ProviderBehavior.raise "boom") emptyStore
        { message := "hello", provider := "openai", sessionId := "s1", apiKey := some "k" }).store.messages
        = emptyStore.messages ++
          [{ id := 0, content := "hello", role := "user",
             provider := some "openai", sessionId := "s1", timestamp := 0 }]
    ∧ (∀ aiMsg, (sendChat (fun _ => ProviderBehavior.raise "boom") emptyStore
        { message := "hello", provider := "openai", sessionId := "s1", apiKey := some "k" }).result
          ≠ ChatResult.okJson aiMsg)
    ∧ (∀ statusText : String, ∀ store2 : Store, ∀ body2 : RawChatRequest,
        body2.provider = "deepseek" → isBlank body2.message = false →
        (sendChat (fun _ => ProviderBehavior.httpStatusError statusText) store2 body2).result
          = ChatResult.serverError ("DeepSeek API error: " ++ statusText)) :=
  c3_provider_failure (fun _ => ProviderBehavior.raise "boom") emptyStore
    { message := "hello", provider := "openai", sessionId := "s1", apiKey := some "k" }
    (Or.inl rfl) (by decide)
    (fun w c h => ProviderBehavior.noConfusion h)

/-- C4: every successful sendChat call appends exactly two messages to the
session — first the user message with the input content, then the assistant
message carrying the reply the provider returned (the extracted content, or
the sentinel when that content was falsy) and the provider tag — and returns
the created assistant message (the okJson payload). -/
theorem c4_success_two_messages (oracle : WireRequest → ProviderBehavior) (store : Store)
    (body : RawChatRequest) (aiMsg : Message)
    (h : (sendChat oracle store body).result = ChatResult.okJson aiMsg) :
    ∃ userMsg : Message,
      (sendChat oracle store body).store.messages = store.messages ++ [userMsg, aiMsg]
      ∧ getMessages (sendChat oracle store body).store body.sessionId
          = getMessages store body.sessionId ++ [userMsg, aiMsg]
      ∧ userMsg.role = "user" ∧ userMsg.content = body.message
      ∧ userMsg.sessionId = body.sessionId
      ∧ aiMsg.role = "assistant" ∧ aiMsg.provider = some body.provider
      ∧ aiMsg.sessionId = body.sessionId
      ∧ ∃ wire content,
          (sendChat oracle store body).sent = some wire
          ∧ oracle wire = ProviderBehavior.reply content
          ∧ aiMsg.content = jsOr content "No response received" := by
  obtain ⟨hb, hp, hcb, hid, hrole, hprov, hsid, hts, hstore, hreply⟩ :=
    sendChat_okJson_spec oracle store body aiMsg _ rfl h
  refine ⟨{ id := store.nextId, content := body.message, role := "user",
            provider := some body.provider, sessionId := body.sessionId,
            timestamp := store.nextId }, ?_, ?_, rfl, rfl, rfl, hrole, hprov, hsid, hreply⟩
  · rw [hstore]
  · rw [hstore]
    simp [getMessages, List.filter_append, hsid]

/-- C4 (witness): the theorem applied at a concrete successful openai call. -/
theorem c4_success_two_messages_witness :
    ∃ userMsg : Message,
      (sendChat (fun _ => ProviderBehavior.reply (some "hi")) emptyStore
          { message := "hello", provider := "openai", sessionId := "s1", apiKey := some "k" }).store.messages
        = emptyStore.messages ++
          [userMsg, { id := 1, content := "hi", role := "assistant",
                      provider := some "openai", sessionId := "s1", timestamp := 1 }]
      ∧ getMessages (sendChat (fun _ => ProviderBehavior.reply (some "hi")) emptyStore
          { message := "hello", provider := "openai", sessionId := "s1", apiKey := some "k" }).store "s1"
        = getMessages emptyStore "s1" ++
          [userMsg, { id := 1, content := "hi", role := "assistant",
                      provider := some "openai", sessionId := "s1", timestamp := 1 }]
      ∧ userMsg.role = "user" ∧ userMsg.content = "hello"
      ∧ userMsg.sessionId = "s1"
      ∧ ({ id := 1, content := "hi", role := "assistant",
           provider := some "openai", sessionId := "s1", timestamp := 1 } : Message).role = "assistant"
      ∧ ({ id := 1, content := "hi", role := "assistant",
           provider := some "openai", sessionId := "s1", timestamp := 1 } : Message).provider = some "openai"
      ∧ ({ id := 1, content := "hi", role := "assistant",
           provider := some "openai", sessionId := "s1", timestamp := 1 } : Message).sessionId = "s1"
      ∧ ∃ wire content,
          (sendChat (fun _ => ProviderBehavior.reply (some "hi")) emptyStore
            { message := "hello", provider := "openai", sessionId := "s1", apiKey := some "k" }).sent
            = some wire
          ∧ (fun _ => ProviderBehavior.reply (some "hi")) wire = ProviderBehavior.reply content
          ∧ ({ id := 1, content := "hi", role := "assistant",
               provider := some "openai", sessionId := "s1", timestamp := 1 } : Message).content
              = jsOr content "No response received" :=
  c4_success_two_messages (fun _ => ProviderBehavior.reply (some "hi")) emptyStore
    { message := "hello", provider := "openai", sessionId := "s1", apiKey := some "k" }
    { id := 1, content := "hi", role := "assistant",
      provider := some "openai", sessionId := "s1", timestamp := 1 }
    (by decide)

/-- C5: a successful provider call whose response has no textual content
field still succeeds, and the assistant message stored and returned has
content exactly the sentinel "No response received". -/
theorem c5_missing_content_sentinel (oracle : WireRequest → ProviderBehavior) (store : Store)
    (body : RawChatRequest)
    (hp : body.provider = "openai" ∨ body.provider = "deepseek")
    (hb : isBlank body.message = false)
    (hnone : ∀ w, oracle w = ProviderBehavior.reply none) :
    ∃ aiMsg, (sendChat oracle store body).result = ChatResult.okJson aiMsg
      ∧ aiMsg.content = "No response received" := by
  cases hp with
  | inl hpo =>
    rw [sendChat_openai oracle store body _ _ hb hpo rfl rfl, hnone _]
    dsimp only
    rw [createMessage_ok _ _ (show isBlank (jsOr none "No response received") = false by decide)]
    exact ⟨_, rfl, rfl⟩
  | inr hpd =>
    rw [sendChat_deepseek oracle store body _ _ hb hpd rfl rfl, hnone _]
    dsimp only
    rw [createMessage_ok _ _ (show isBlank (jsOr none "No response received") = false by decide)]
    exact ⟨_, rfl, rfl⟩

/-- C5 (witness): the theorem applied at a concrete reply-with-no-content
oracle on an openai request. -/
theorem c5_missing_content_sentinel_witness :
    ∃ aiMsg, (sendChat (fun _ => ProviderBehavior.reply none) emptyStore
        { message := "hello", provider := "openai", sessionId := "s1", apiKey := some "k" }).result
      = ChatResult.okJson aiMsg
      ∧ aiMsg.content = "No response received" :=
  c5_missing_content_sentinel (fun _ => ProviderBehavior.reply none) emptyStore
    { message := "hello", provider := "openai", sessionId := "s1", apiKey := some "k" }
    (Or.inl rfl) (by decide) (fun _ => rfl)

/-- C6 (counterexample): after one successful complete call, the second
call sends the provider three messages (the user and
assistant messages of the first turn plus the just-appended second user message), not
four — the fourth message of the two turns is created only after the second
provider call returns. -/
theorem c6_counterexample :
    ((sendChat (fun _ => ProviderBehavior.reply (some "hi there"))
        (sendChat (fun _ => ProviderBehavior.reply (some "hi there")) emptyStore
          { message := "hello", provider := "openai", sessionId := "s1", apiKey := some "k" }).store
        { message := "again", provider := "openai", sessionId := "s1", apiKey := some "k" }).sent.map
      (fun w => w.messages.length)) = some 3
    ∧ ((sendChat (fun _ => ProviderBehavior.reply (some "hi there"))
        (sendChat (fun _ => ProviderBehavior.reply (some "hi there")) emptyStore
          { message := "hello", provider := "openai", sessionId := "s1", apiKey := some "k" }).store
        { message := "again", provider := "openai", sessionId := "s1", apiKey := some "k" }).sent.map
      (fun w => w.messages.length)) ≠ some 4 := by
  refine ⟨by decide, by decide⟩

/-- C6 (amended): the message list sent to the provider is exactly the whole
session transcript as read after the user message was appended — including
that just-appended user message, untruncated and in order; hence after one
successful call, the provider request of the second call sees the three messages
so far (initial session length + 3), and the session holds the four new
messages only once the second call has also succeeded (initial session
length + 4). -/
theorem c6_full_history (oracle : WireRequest → ProviderBehavior) (store : Store)
    (body : RawChatRequest) :
    (∀ wire, (sendChat oracle store body).sent = some wire →
      ∃ userMsg store1,
        createMessage store
            { content := body.message, role := "user",
              provider := some body.provider, sessionId := body.sessionId }
          = Except.ok (userMsg, store1)
        ∧ wire.messages = translateHistory (getMessages store1 body.sessionId)
        ∧ getMessages store1 body.sessionId = getMessages store body.sessionId ++ [userMsg])
    ∧ (∀ aiMsg body2 wire2,
        (sendChat oracle store body).result = ChatResult.okJson aiMsg →
        body2.sessionId = body.sessionId →
        (sendChat oracle (sendChat oracle store body).store body2).sent = some wire2 →
        wire2.messages.length = (getMessages store body.sessionId).length + 3)
    ∧ (∀ aiMsg aiMsg2 body2,
        (sendChat oracle store body).result = ChatResult.okJson aiMsg →
        body2.sessionId = body.sessionId →
        (sendChat oracle (sendChat oracle store body).store body2).result
          = ChatResult.okJson aiMsg2 →
        (getMessages (sendChat oracle (sendChat oracle store body).store body2).store
            body.sessionId).length
          = (getMessages store body.sessionId).length + 4) := by
  refine ⟨?_, ?_, ?_⟩
  · intro wire h
    obtain ⟨-, -, -, -, u, s1, hcm, hwm, hget⟩ :=
      sendChat_sent_spec oracle store body _ wire rfl h
    exact ⟨u, s1, hcm, hwm, hget⟩
  · intro aiMsg body2 wire2 h1 hsid2 h2
    obtain ⟨-, -, -, -, -, -, hsidAi, -, hstore, -⟩ :=
      sendChat_okJson_spec oracle store body aiMsg _ rfl h1
    obtain ⟨-, -, -, -, u2, s12, hcm2, hwm2, hget2⟩ :=
      sendChat_sent_spec oracle (sendChat oracle store body).store body2 _ wire2 rfl h2
    have hmid : getMessages (sendChat oracle store body).store body2.sessionId
        = getMessages store body.sessionId ++
          [{ id := store.nextId, content := body.message, role := "user",
             provider := some body.provider, sessionId := body.sessionId,
             timestamp := store.nextId }, aiMsg] := by
      rw [hstore, hsid2]
      simp [getMessages, List.filter_append, hsidAi]
    rw [hwm2, hget2, hmid]
    simp [translateHistory]
  · intro aiMsg aiMsg2 body2 h1 hsid2 h2
    obtain ⟨-, -, -, -, -, -, hsidAi, -, hstore, -⟩ :=
      sendChat_okJson_spec oracle store body aiMsg _ rfl h1
    obtain ⟨-, -, -, -, -, -, hsidAi2, -, hstore2, -⟩ :=
      sendChat_okJson_spec oracle (sendChat oracle store body).store body2 aiMsg2 _ rfl h2
    rw [hstore2, hstore]
    simp [getMessages, List.filter_append, hsidAi, hsidAi2, hsid2]

/-- C6 (witness): the amended theorem applied at two concrete sequential
successful openai calls on session "s1". -/
theorem c6_full_history_witness :
    (∃ userMsg store1,
      createMessage emptyStore
          { content := "hello", role := "user", provider := some "openai", sessionId := "s1" }
        = Except.ok (userMsg, store1)
      ∧ ({ model := "gpt-5", messages := [{ role := "user", content := "hello" }],
           maxTokens := 1000 } : WireRequest).messages
          = translateHistory (getMessages store1 "s1")
      ∧ getMessages store1 "s1" = getMessages emptyStore "s1" ++ [userMsg])
    ∧ ({ model := "gpt-5",
         messages := [{ role := "user", content := "hello" },
                      { role := "assistant", content := "hi there" },
                      { role := "user", content := "again" }],
         maxTokens := 1000 } : WireRequest).messages.length
        = (getMessages emptyStore "s1").length + 3
    ∧ (getMessages (sendChat (fun _ => ProviderBehavior.reply (some "hi there"))
          (sendChat (fun _ => ProviderBehavior.reply (some "hi there")) emptyStore
            { message := "hello", provider := "openai", sessionId := "s1", apiKey := some "k" }).store
          { message := "again", provider := "openai", sessionId := "s1", apiKey := some "k" }).store
        "s1").length
      = (getMessages emptyStore "s1").length + 4 :=
  ⟨(c6_full_history (fun _ => ProviderBehavior.reply (some "hi there")) emptyStore
      { message := "hello", provider := "openai", sessionId := "s1", apiKey := some "k" }).1
    { model := "gpt-5", messages := [{ role := "user", content := "hello" }], maxTokens := 1000 }
    (by decide),
   (c6_full_history (fun _ => ProviderBehavior.reply (some "hi there")) emptyStore
      { message := "hello", provider := "openai", sessionId := "s1", apiKey := some "k" }).2.1
    { id := 1, content := "hi there", role := "assistant", provider := some "openai",
      sessionId := "s1", timestamp := 1 }
    { message := "again", provider := "openai", sessionId := "s1", apiKey := some "k" }
    { model := "gpt-5",
      messages := [{ role := "user", content := "hello" },
                   { role := "assistant", content := "hi there" },
                   { role := "user", content := "again" }],
      maxTokens := 1000 }
    (by decide) rfl (by decide),
   (c6_full_history (fun _ => ProviderBehavior.reply (some "hi there")) emptyStore
      { message := "hello", provider := "openai", sessionId := "s1", apiKey := some "k" }).2.2
    { id := 1, content := "hi there", role := "assistant", provider := some "openai",
      sessionId := "s1", timestamp := 1 }
    { id := 3, content := "hi there", role := "assistant", provider := some "openai",
      sessionId := "s1", timestamp := 3 }
    { message := "again", provider := "openai", sessionId := "s1", apiKey := some "k" }
    (by decide) rfl (by decide)⟩

/-- C7: whenever a provider request is sent, its maximum reply length is the
fixed ceiling 1000, for every provider, store state and request body —
independent of anything the caller supplies. -/
theorem c7_fixed_max_tokens (oracle : WireRequest → ProviderBehavior) (store : Store)
    (body : RawChatRequest) (wire : WireRequest)
    (h : (sendChat oracle store body).sent = some wire) :
    wire.maxTokens = 1000 :=
  (sendChat_sent_spec oracle store body _ wire rfl h).2.2.1

/-- C7 (witness): the theorem applied at a concrete openai call. -/
theorem c7_fixed_max_tokens_witness :
    ({ model := "gpt-5", messages := [{ role := "user", content := "hello" }],
       maxTokens := 1000 } : WireRequest).maxTokens = 1000 :=
  c7_fixed_max_tokens (fun _ => ProviderBehavior.reply (some "hi")) emptyStore
    { message := "hello", provider := "openai", sessionId := "s1", apiKey := some "k" }
    { model := "gpt-5", messages := [{ role := "user", content := "hello" }], maxTokens := 1000 }
    (by decide)

/-- C8: a request whose message is empty or whitespace-only after trimming
fails validation with the 400 response before any message is stored: the
store is returned unchanged and no provider request is sent. The store-level
append guard independently rejects such content with a ValidationError. -/
theorem c8_blank_message_rejected (oracle : WireRequest → ProviderBehavior) (store : Store)
    (body : RawChatRequest) (h : isBlank body.message = true) :
    sendChat oracle store body
      = { result := ChatResult.badRequest "Invalid request data", store := store, sent := none }
    ∧ ∀ s : Store, ∀ im : InsertMessage, im.content = body.message →
        createMessage s im = Except.error "ValidationError: content must not be empty" := by
  constructor
  · refine sendChat_not_parse oracle store body ?_
    unfold chatRequestParses
    rw [h]
    simp
  · intro s im him
    simp [createMessage, him, h]

/-- C8 (witness): the theorem applied at a whitespace-only message. -/
theorem c8_blank_message_rejected_witness :
    (sendChat (fun _ => ProviderBehavior.reply (some "hi")) emptyStore
        { message := "   ", provider := "openai", sessionId := "s1", apiKey := some "k" }
      = { result := ChatResult.badRequest "Invalid request data", store := emptyStore, sent := none })
    ∧ ∀ s : Store, ∀ im : InsertMessage, im.content = "   " →
        createMessage s im = Except.error "ValidationError: content must not be empty" :=
  c8_blank_message_rejected (fun _ => ProviderBehavior.reply (some "hi")) emptyStore
    { message := "   ", provider := "openai", sessionId := "s1", apiKey := some "k" }
    (by decide)

/-- C9: the assistant content stored by a successful call is never the empty
string, and when the extracted reply is falsy — the content field absent, or
present but the empty string — the stored content is exactly the sentinel
"No response received". -/
theorem c9_assistant_content_not_empty (oracle : WireRequest → ProviderBehavior) (store : Store)
    (body : RawChatRequest) (aiMsg : Message)
    (h : (sendChat oracle store body).result = ChatResult.okJson aiMsg) :
    aiMsg.content ≠ ""
    ∧ ∀ wire, (sendChat oracle store body).sent = some wire →
        (oracle wire = ProviderBehavior.reply none
          ∨ oracle wire = ProviderBehavior.reply (some "")) →
        aiMsg.content = "No response received" := by
  obtain ⟨-, -, hcb, -, -, -, -, -, -, w, c, hsent, hor, hcontent⟩ :=
    sendChat_okJson_spec oracle store body aiMsg _ rfl h
  constructor
  · intro hc
    rw [hc] at hcb
    simp [isBlank] at hcb
  · intro wire hw hcase
    rw [hsent] at hw
    injection hw with hw
    subst hw
    cases hcase with
    | inl h0 =>
      rw [h0] at hor
      injection hor with hor
      rw [hcontent, ← hor]
      rfl
    | inr h0 =>
      rw [h0] at hor
      injection hor with hor
      rw [hcontent, ← hor]
      simp [jsOr]

/-- C9 (witness): the theorem applied at a concrete call whose provider
reply has no content field. -/
theorem c9_assistant_content_not_empty_witness :
    ({ id := 1, content := "No response received", role := "assistant",
       provider := some "openai", sessionId := "s1", timestamp := 1 } : Message).content ≠ ""
    ∧ ∀ wire, (sendChat (fun _ => ProviderBehavior.reply none) emptyStore
          { message := "hello", provider := "openai", sessionId := "s1", apiKey := some "k" }).sent
        = some wire →
        ((fun _ => ProviderBehavior.reply none) wire = ProviderBehavior.reply none
          ∨ (fun _ => ProviderBehavior.reply none) wire = ProviderBehavior.reply (some "")) →
        ({ id := 1, content := "No response received", role := "assistant",
           provider := some "openai", sessionId := "s1", timestamp := 1 } : Message).content
          = "No response received" :=
  c9_assistant_content_not_empty (fun _ => ProviderBehavior.reply none) emptyStore
    { message := "hello", provider := "openai", sessionId := "s1", apiKey := some "k" }
    { id := 1, content := "No response received", role := "assistant",
      provider := some "openai", sessionId := "s1", timestamp := 1 }
    (by decide)

/-- C10: for the "puter" provider the chat turn never reaches the router —
the client issues exactly one backend request, a POST to /api/ai-response
carrying only the assistant content (never the user message, which is not
posted to the server at all), and registerRoutes registers no handler for
POST /api/ai-response. -/
theorem c10_puter_bypasses_router (cached : List Message) (chatRequest : RawChatRequest)
    (puter : WireRequest → PuterResponse)
    (h : chatRequest.provider = "puter") :
    (∃ aiContent,
      sendMessageMutationRequests cached chatRequest puter
        = [{ method := "POST", path := "/api/ai-response",
             body := BackendBody.aiResponseBody aiContent "puter" chatRequest.sessionId }])
    ∧ (∀ r ∈ sendMessageMutationRequests cached chatRequest puter,
        r.path ≠ "/api/chat" ∧ r.path = "/api/ai-response")
    ∧ handlesRequest "POST" "/api/ai-response" = false := by
  refine ⟨?_, ?_, by decide⟩
  · unfold sendMessageMutationRequests
    rw [if_pos h]
    exact ⟨_, rfl⟩
  · intro r hr
    unfold sendMessageMutationRequests at hr
    rw [if_pos h] at hr
    simp only [List.mem_singleton] at hr
    rw [hr]
    refine ⟨?_, rfl⟩
    show ("/api/ai-response" : String) ≠ "/api/chat"
    decide

/-- C10 (witness): the theorem applied at a concrete puter-provider turn. -/
theorem c10_puter_bypasses_router_witness :
    (∃ aiContent,
      sendMessageMutationRequests []
          { message := "hello", provider := "puter", sessionId := "s1", apiKey := none }
          (fun _ => { messageContent := some "hi", toStringVal := "hi" })
        = [{ method := "POST", path := "/api/ai-response",
             body := BackendBody.aiResponseBody aiContent "puter" "s1" }])
    ∧ (∀ r ∈ sendMessageMutationRequests []
          { message := "hello", provider := "puter", sessionId := "s1", apiKey := none }
          (fun _ => { messageContent := some "hi", toStringVal := "hi" }),
        r.path ≠ "/api/chat" ∧ r.path = "/api/ai-response")
    ∧ handlesRequest "POST" "/api/ai-response" = false :=
  c10_puter_bypasses_router []
    { message := "hello", provider := "puter", sessionId := "s1", apiKey := none }
    (fun _ => { messageContent := some "hi", toStringVal := "hi" }) rfl

end AIApiConnect
